import Mathlib

/-!
Verification of the source-to-graph extraction and cross-layer reconciliation
pipeline of the Koinon RMS developer tooling (tools/graph).

The Python scripts `generate-backend.py`, `merge-graph.py` and
`verify-contracts.py` are shallowly embedded below.  Strings are modelled as
`List Char` (with `String` wrappers at the API surface); Python dictionaries
are modelled as association lists in insertion order; the `re` module calls
are modelled by a small backtracking engine (`RE`, `reMatches`) whose
alternative order reproduces Python's leftmost, backtracking-priority
semantics for the constructs actually used by the scripts (literals,
character classes, greedy and lazy repetition of character classes,
alternation, optional groups and capturing groups).  Character classes are
read with their ASCII meaning, which is what the scanned C# sources use.
-/

namespace Koinon

/-! ## Basic string helpers (Python `str` operations) -/

/-- ASCII whitespace, the characters Python's `\s` and `str.strip()` treat as
space in the ASCII range. -/
def isSpacePy (c : Char) : Bool :=
  c = ' ' || c = '\t' || c = '\n' || c = '\r' || c = '\x0b' || c = '\x0c'

def isDigitC (c : Char) : Bool := '0' ≤ c && c ≤ '9'

def isUpperC (c : Char) : Bool := 'A' ≤ c && c ≤ 'Z'

def isLowerC (c : Char) : Bool := 'a' ≤ c && c ≤ 'z'

def isAlphaC (c : Char) : Bool := isUpperC c || isLowerC c

/-- Python `\w` restricted to ASCII: `[A-Za-z0-9_]`. -/
def isWordC (c : Char) : Bool := isAlphaC c || isDigitC c || c = '_'

/-- `needle in hay` on Python strings: substring containment. -/
def containsSub (needle : List Char) : List Char → Bool
  | [] => needle.isPrefixOf []
  | c :: t => if needle.isPrefixOf (c :: t) then true else containsSub needle t

/-- Python `str.strip()` (no arguments): drop ASCII whitespace at both ends. -/
def pyStrip (s : List Char) : List Char :=
  ((s.dropWhile isSpacePy).reverse.dropWhile isSpacePy).reverse

/-- Python `str.strip(c)` for a single character `c`. -/
def pyStripChar (c : Char) (s : List Char) : List Char :=
  ((s.dropWhile (· = c)).reverse.dropWhile (· = c)).reverse

/-- Python `str.lower()` on ASCII data. -/
def lowerL (s : List Char) : List Char := s.map Char.toLower

def strLower (s : String) : String := String.mk (lowerL s.data)

def listEndsWith (s suf : List Char) : Bool := suf.reverse.isPrefixOf s.reverse

def strEndsWith (s suf : String) : Bool := listEndsWith s.data suf.data

def strStartsWith (s pre : String) : Bool := pre.data.isPrefixOf s.data

/-- Python `s[:-n]`. -/
def strDropRight (s : String) (n : Nat) : String :=
  String.mk (s.data.take (s.data.length - n))

/-! ## A tiny backtracking regex engine

`reMatches r s` returns every way `r` can match a prefix of `s`, as
`(consumed length, captures)` pairs, in exactly the order a backtracking
engine such as Python's `re` explores them; the head of the list is the
match `re.match` reports.  Repetition is only ever applied to single
character classes in the patterns of this repository, so the possible
consumptions of `[c]+` / `[c]*` on a given input form the contiguous range
`1..n` / `0..n` (with `n` the length of the maximal run), tried longest
first when greedy and shortest first when lazy. -/

/-- Captured groups: group index to captured text, each group set at most
once per alternative in the patterns used here. -/
abbrev Caps := List (Nat × List Char)

def capGet (caps : Caps) (i : Nat) : List Char := (caps.lookup i).getD []

inductive RE where
  /-- a literal string -/
  | lit (l : List Char)
  /-- a single-character class `[c]` -/
  | cls (p : Char → Bool)
  /-- `[c]+` (lazy := false) or `[c]+?` (lazy := true) -/
  | plusCls (p : Char → Bool) (lazy : Bool)
  /-- `[c]*` (greedy) -/
  | starCls (p : Char → Bool)
  | seq (r1 r2 : RE)
  /-- `(?:r1|r2)`, `r1` preferred -/
  | alt (r1 r2 : RE)
  /-- `(?:r)?` (greedy: presence preferred) -/
  | opt (r : RE)
  /-- capturing group number `i` -/
  | group (i : Nat) (r : RE)

def reMatches : RE → List Char → List (Nat × Caps)
  | .lit l, s => if l.isPrefixOf s then [(l.length, [])] else []
  | .cls p, s =>
      match s with
      | c :: _ => if p c then [(1, [])] else []
      | [] => []
  | .plusCls p lz, s =>
      let n := (s.takeWhile p).length
      let lens := (List.range n).map (· + 1)
      (if lz then lens else lens.reverse).map (fun k => (k, []))
  | .starCls p, s =>
      let n := (s.takeWhile p).length
      (List.range (n + 1)).reverse.map (fun k => (k, []))
  | .seq r1 r2, s =>
      (reMatches r1 s).flatMap (fun m1 =>
        (reMatches r2 (s.drop m1.1)).map (fun m2 => (m1.1 + m2.1, m1.2 ++ m2.2)))
  | .alt r1 r2, s => reMatches r1 s ++ reMatches r2 s
  | .opt r, s => reMatches r s ++ [(0, [])]
  | .group i r, s =>
      (reMatches r s).map (fun m => (m.1, m.2 ++ [(i, s.take m.1)]))

/-- `re.match`: anchored at the start, first alternative in priority order. -/
def reMatch (r : RE) (s : List Char) : Option (Nat × Caps) :=
  (reMatches r s).head?

/-- `re.search` on a suffix: leftmost match as `(start, length, captures)`,
with `start` relative to the given list. -/
def reSearchList (r : RE) : List Char → Option (Nat × Nat × Caps)
  | [] =>
      match reMatch r [] with
      | some (n, caps) => some (0, n, caps)
      | none => none
  | c :: t =>
      match reMatch r (c :: t) with
      | some (n, caps) => some (0, n, caps)
      | none => (reSearchList r t).map (fun m => (m.1 + 1, m.2))

/-- `re.search`. -/
def reSearch (r : RE) (s : List Char) : Option (Nat × Nat × Caps) :=
  reSearchList r s

def reFindIterAux (r : RE) (s : List Char) : Nat → Nat → List (Nat × Nat × Caps)
  | _, 0 => []
  | pos, fuel + 1 =>
      match (reSearchList r (s.drop pos)).map (fun m => (pos + m.1, m.2)) with
      | none => []
      | some (st, n, caps) => (st, n, caps) :: reFindIterAux r s (st + max n 1) fuel

/-- `re.finditer`: non-overlapping matches scanning left to right, each search
resuming at the previous match's end (advancing one past a zero-length
match, as Python does). -/
def reFindIter (r : RE) (s : List Char) : List (Nat × Nat × Caps) :=
  reFindIterAux r s 0 (s.length + 1)

def spliceSub (repl : Caps → List Char) (s : List Char) :
    List (Nat × Nat × Caps) → Nat → List Char
  | [], i => s.drop i
  | (st, n, caps) :: rest, i =>
      (s.drop i).take (st - i) ++ repl caps ++ spliceSub repl s rest (st + n)

/-- `re.sub` with a replacement built from the captures. -/
def reSub (r : RE) (repl : Caps → List Char) (s : List Char) : List Char :=
  spliceSub repl s (reFindIter r s) 0

end Koinon

namespace Koinon.GenBackend

/-! ## Embedding of `tools/graph/generate-backend.py` (class CSharpParser) -/

/-- `\s+` -/
def plusS : RE := .plusCls isSpacePy false

/-- `\s*` -/
def starS : RE := .starCls isSpacePy

/-- `(.)([A-Z][a-z]+)` of `camel_to_snake`. -/
def camelPat1 : RE :=
  .seq (.group 1 (.cls (fun c => c ≠ '\n')))
    (.group 2 (.seq (.cls isUpperC) (.plusCls isLowerC false)))

/-- `([a-z0-9])([A-Z])` of `camel_to_snake`. -/
def camelPat2 : RE :=
  .seq (.group 1 (.cls (fun c => isLowerC c || isDigitC c))) (.group 2 (.cls isUpperC))

/-- Replacement template `\1_\2`. -/
def underscoreRepl (caps : Caps) : List Char :=
  capGet caps 1 ++ '_' :: capGet caps 2

/-- `CSharpParser.camel_to_snake`: two `re.sub` passes then `.lower()`. -/
def camel_to_snake (name : String) : String :=
  let s1 := reSub camelPat1 underscoreRepl name.data
  String.mk (lowerL (reSub camelPat2 underscoreRepl s1))

/-- Shorthand for the character data of a literal pattern fragment. -/
def strL (s : String) : List Char := s.data

/-- `[A-Za-z_][A-Za-z0-9_]*`: an identifier. -/
def identR : RE :=
  .seq (.cls (fun c => isAlphaC c || c = '_')) (.starCls isWordC)

/-- The property pattern of `CSharpParser.extract_properties` (line 56):
`public\s+(?:required\s+)?(.+?)\s+([A-Za-z_][A-Za-z0-9_]*)\s*[` followed by
the brace-or-semicolon class. -/
def propPattern : RE :=
  .seq (.lit (strL ("public"))) (.seq plusS
    (.seq (.opt (.seq (.lit (strL ("required"))) plusS))
      (.seq (.group 1 (.plusCls (fun c => c ≠ '\n') true))
        (.seq plusS (.seq (.group 2 identR)
          (.seq starS (.cls (fun c => c = '\x7b' || c = ';'))))))))

def KEYWORD_BLACKLIST : List String :=
  ["class", "record", "enum", "struct", "interface"]

/-- Python dict assignment `d[k] = v`: update the value in place when the key
exists, otherwise append the pair. -/
def dictInsert (d : List (String × String)) (k v : String) : List (String × String) :=
  if (d.lookup k).isSome then d.map (fun kv => if kv.1 = k then (k, v) else kv)
  else d ++ [(k, v)]

/-- `CSharpParser.extract_properties` (lines 51-63). -/
def extract_properties (content : String) : List (String × String) :=
  (reFindIter propPattern content.data).foldl (fun props m =>
    let prop_type := String.mk (pyStrip (capGet m.2.2 1))
    let prop_name := String.mk (capGet m.2.2 2)
    if prop_type ∈ KEYWORD_BLACKLIST then props
    else dictInsert props prop_name prop_type) []

/-- Return-type fragment of the method pattern (line 216):
`([^\s(]+(?:<[^>]+(?:<[^>]+>)?[^>]*>)?)`, group left to the caller. -/
def retTypeR : RE :=
  .seq (.plusCls (fun c => !(isSpacePy c || c = '(')) false)
    (.opt (.seq (.lit (strL ("<")))
      (.seq (.plusCls (fun c => c ≠ '>') false)
        (.seq (.opt (.seq (.lit (strL ("<")))
            (.seq (.plusCls (fun c => c ≠ '>') false) (.lit (strL (">"))))))
          (.seq (.starCls (fun c => c ≠ '>')) (.lit (strL (">"))))))))

/-- The method pattern of `CSharpParser.extract_methods` (line 216):
`public\s+(?:async\s+)?(?:override\s+)?(?:virtual\s+)?<ret>\s+<name>\s*\(`. -/
def methodPattern : RE :=
  .seq (.lit (strL ("public"))) (.seq plusS
    (.seq (.opt (.seq (.lit (strL ("async"))) plusS))
      (.seq (.opt (.seq (.lit (strL ("override"))) plusS))
        (.seq (.opt (.seq (.lit (strL ("virtual"))) plusS))
          (.seq (.group 1 retTypeR)
            (.seq plusS (.seq (.group 2 identR)
              (.seq starS (.lit (strL ("(")))))))))))

structure MethodInfo where
  name : String
  return_type : String
  is_async : Bool
deriving DecidableEq

/-- The lookback window of line 220:
`content[max(0, match.start()-50):match.start()]`. -/
def asyncLookback (content : List Char) (start : Nat) : List Char :=
  (content.take start).drop (start - 50)

/-- The body of the `finditer` loop of `extract_methods` (lines 217-226),
for one match starting at position `m.1`. -/
def mkMethod (content : List Char) (m : Nat × Nat × Caps) : Option MethodInfo :=
  let return_type := String.mk (pyStrip (capGet m.2.2 1))
  let method_name := String.mk (capGet m.2.2 2)
  let is_async := containsSub (strL ("async")) (asyncLookback content m.1)
  if method_name ∈ [("get" : String), ("set" : String)] then none
  else some ⟨method_name, return_type, is_async⟩

/-- `CSharpParser.extract_methods` (lines 212-227). -/
def extract_methods (content : String) : List MethodInfo :=
  (reFindIter methodPattern content.data).filterMap (mkMethod content.data)

/-- The primary-constructor pattern of
`CSharpParser.extract_constructor_dependencies` (line 233):
`(?:public\s+)?(?:class|record|struct)\s+\w+\s*\(([^)]+)\)`. -/
def ctorPattern : RE :=
  .seq (.opt (.seq (.lit (strL ("public"))) plusS))
    (.seq (.alt (.lit (strL ("class")))
        (.alt (.lit (strL ("record"))) (.lit (strL ("struct")))))
      (.seq plusS (.seq (.plusCls isWordC false)
        (.seq starS (.seq (.lit (strL ("(")))
          (.seq (.group 1 (.plusCls (fun c => c ≠ ')') false)) (.lit (strL (")")))))))))

/-- The class of the parameter-type group of line 243:
`[A-Za-z0-9._<>,\[\]\s]`. -/
def isCtorTypeChar (c : Char) : Bool :=
  isAlphaC c || isDigitC c || c = '.' || c = '_' || c = '<' || c = '>' ||
    c = ',' || c = '[' || c = ']' || isSpacePy c

/-- The per-parameter type pattern of line 243:
`(?:required\s+)?([A-Za-z0-9._<>,\[\]\s]+?)\s+[a-z_]`. -/
def ctorParamPattern : RE :=
  .seq (.opt (.seq (.lit (strL ("required"))) plusS))
    (.seq (.group 1 (.plusCls isCtorTypeChar true))
      (.seq plusS (.cls (fun c => isLowerC c || c = '_'))))

/-- The loop of `CSharpParser._split_parameters` (lines 250-269); the bracket
counter is an integer, as in Python, so stray closers drive it negative. -/
def splitParamsAux : List Char → Int → List Char → List (List Char) → List (List Char)
  | [], _, current, ps => if current.isEmpty then ps else ps ++ [current]
  | c :: rest, bracketCount, current, ps =>
    if c = '<' ∨ c = '[' then splitParamsAux rest (bracketCount + 1) (current ++ [c]) ps
    else if c = '>' ∨ c = ']' then splitParamsAux rest (bracketCount - 1) (current ++ [c]) ps
    else if c = ',' ∧ bracketCount = 0 then splitParamsAux rest bracketCount [] (ps ++ [current])
    else splitParamsAux rest bracketCount (current ++ [c]) ps

/-- `CSharpParser._split_parameters` (lines 250-269). -/
def split_parameters (params_str : List Char) : List (List Char) :=
  splitParamsAux params_str 0 [] []

/-- `CSharpParser.extract_constructor_dependencies` (lines 229-248). -/
def extract_constructor_dependencies (content : String) : List String :=
  match reSearch ctorPattern content.data with
  | none => []
  | some m =>
    let params := split_parameters (capGet m.2.2 1)
    params.foldl (fun deps p =>
      let p := pyStrip p
      if p.isEmpty then deps
      else
        match reMatch ctorParamPattern p with
        | none => deps
        | some tm =>
          let param_type := pyStrip (capGet tm.2 1)
          if param_type.isEmpty then deps
          else deps ++ [String.mk param_type]) []

/-- The delimiter-balancing loop shared by `extract_class_body` (lines 80-95,
braces) and `_extract_balanced_parens` (lines 106-118, parentheses): scan
forward from the position just past the opening delimiter, starting at depth
one, and return the text strictly before the matching closing delimiter, or
`none` when the input ends before the depth returns to zero. -/
def scanBalanced (opC clC : Char) : List Char → Nat → Option (List Char)
  | [], _ => none
  | c :: rest, depth =>
    let d := if c = opC then depth + 1 else if c = clC then depth - 1 else depth
    if d = 0 then some []
    else (scanBalanced opC clC rest d).map (fun tail => c :: tail)

/-- Depth tracking alone: `some e` exactly when the scan reaches the end of
the input at depth `e` with the depth never having returned to zero. -/
def runDepth (opC clC : Char) : List Char → Nat → Option Nat
  | [], depth => some depth
  | c :: rest, depth =>
    let d := if c = opC then depth + 1 else if c = clC then depth - 1 else depth
    if d = 0 then none else runDepth opC clC rest d

/-- `CSharpParser._extract_balanced_parens` (lines 97-118): `start_pos` must
point at an opening parenthesis; returns the content between the balanced
parentheses (parens excluded), or `""` when out of range, not pointing at a
parenthesis, or unbalanced to the end of the input. -/
def extract_balanced_parens (content : List Char) (start_pos : Nat) : List Char :=
  if content.getD start_pos ' ' = '(' then
    (scanBalanced '(' ')' (content.drop (start_pos + 1)) 1).getD []
  else []

/-- The brace-matching loop of `CSharpParser.extract_class_body` (lines
80-95): `start_pos` is the position immediately after the opening brace of
the class body (`match.end()` in the source); returns the body, or `none`
when the braces never rebalance before the input ends. -/
def class_body_scan (content : List Char) (start_pos : Nat) : Option (List Char) :=
  scanBalanced '\x7b' '\x7d' (content.drop start_pos) 1

end Koinon.GenBackend

namespace Koinon.MergeGraph

/-! ## Embedding of `tools/graph/merge-graph.py` (class GraphMerger)

The merger treats the registries of the two input graphs as opaque JSON
mappings — it copies them verbatim and only ever inspects their keys — so
the graphs are parametrised by the registry-value type `α` and the
edge-object type `ε`. -/

structure BackendGraph (α ε : Type) where
  entities : List (String × α)
  dtos : List (String × α)
  services : List (String × α)
  controllers : List (String × α)
  edges : List ε

structure FrontendGraph (α ε : Type) where
  types : List (String × α)
  api_functions : List (String × α)
  hooks : List (String × α)
  components : List (String × α)
  edges : List ε

structure MergeStats where
  entities : Nat
  dtos : Nat
  services : Nat
  controllers : Nat
  types : Nat
  api_functions : Nat
  hooks : Nat
  components : Nat
  total_edges : Nat
deriving DecidableEq

structure MergedGraph (α ε : Type) where
  entities : List (String × α)
  dtos : List (String × α)
  services : List (String × α)
  controllers : List (String × α)
  hooks : List (String × α)
  api_functions : List (String × α)
  components : List (String × α)
  edges : List ε
  cross_layer_mappings : List (String × String)
  stats : MergeStats

/-- `GraphMerger._normalize_dto_name` (lines 56-61). -/
def normalize_dto_name (dto_name : String) : String :=
  if strEndsWith dto_name ("Dto") then strDropRight dto_name 3 else dto_name

/-- `GraphMerger._find_matching_type` (lines 67-81): exact key match first,
then the first frontend type (in insertion order) whose lowercased name
equals the lowercased `Dto`-stripped name. -/
def find_matching_type {α ε : Type} (frontend : FrontendGraph α ε) (dto_name : String) :
    Option String :=
  if (frontend.types.lookup dto_name).isSome then some dto_name
  else
    (frontend.types.map Prod.fst).find?
      (fun type_name => strLower type_name = strLower (normalize_dto_name dto_name))

/-- `GraphMerger.merge` (lines 214-273): copy the backend registries, copy
the frontend registries, concatenate the two edge lists without
deduplication, build the cross-layer mapping table, and compute the summary
statistics (whose `total_edges` counts the merged edge list). -/
def merge {α ε : Type} (backend : BackendGraph α ε) (frontend : FrontendGraph α ε) :
    MergedGraph α ε :=
  { entities := backend.entities
    dtos := backend.dtos
    services := backend.services
    controllers := backend.controllers
    hooks := frontend.hooks
    api_functions := frontend.api_functions
    components := frontend.components
    edges := backend.edges ++ frontend.edges
    cross_layer_mappings :=
      (backend.dtos.map Prod.fst).filterMap (fun dto_name =>
        (find_matching_type frontend dto_name).map (fun type_name =>
          (("dto:") ++ dto_name, ("type:") ++ type_name)))
    stats :=
      { entities := backend.entities.length
        dtos := backend.dtos.length
        services := backend.services.length
        controllers := backend.controllers.length
        types := frontend.types.length
        api_functions := frontend.api_functions.length
        hooks := frontend.hooks.length
        components := frontend.components.length
        total_edges := (backend.edges ++ frontend.edges).length } }

/-- Python `route.replace("//", "/")`: left-to-right, non-overlapping. -/
def collapseDoubleSlash : List Char → List Char
  | '/' :: '/' :: rest => '/' :: collapseDoubleSlash rest
  | c :: rest => c :: collapseDoubleSlash rest
  | [] => []

/-- The normalisation of lines 167-168: collapse `//`, then strip outer
slashes. -/
def normalizeRoute (route : String) : List Char :=
  pyStripChar '/' (collapseDoubleSlash route.data)

/-- The placeholder pattern of line 180, a brace, one or more non-brace
characters, and a closing brace. -/
def paramPat : RE :=
  .seq (.lit ['\x7b']) (.seq (.plusCls (fun c => c ≠ '\x7d') false) (.lit ['\x7d']))

/-- `route_to_pattern` (lines 178-180): every `{...}` placeholder becomes the
canonical `{param}` token. -/
def route_to_pattern (route : List Char) : List Char :=
  reSub paramPat (fun _ => ("\x7bparam\x7d").data) route

/-- `GraphMerger._routes_match` (lines 163-184). -/
def routes_match (backend_route frontend_route : String) : Bool :=
  let backend_normalized := normalizeRoute backend_route
  let frontend_normalized := normalizeRoute frontend_route
  if backend_normalized = frontend_normalized then true
  else decide (route_to_pattern backend_normalized = route_to_pattern frontend_normalized)

/-- A small backend graph (registry values and edge objects by number) used
to instantiate the merge theorem. -/
def sampleBackend : BackendGraph Nat Nat :=
  ⟨[], [(("PersonDto"), 0)], [], [], [1, 2]⟩

/-- A small frontend graph used to instantiate the merge theorem. -/
def sampleFrontend : FrontendGraph Nat Nat :=
  ⟨[(("Person"), 0)], [], [], [], [3, 4, 5]⟩

end Koinon.MergeGraph

namespace Koinon.VerifyContracts

/-! ## Embedding of `tools/graph/verify-contracts.py` (class ContractVerifier)

The graph consumed by the verifier is JSON; sections the checks read with
`self.graph.get(section, {})` are modelled as `Option` fields read with
`Option.getD`, so an absent section and an empty one behave alike except in
`load_graph`, which requires the four mandatory sections to be present.
Where the source iterates a Python `set` (whose order is unspecified), the
embedding iterates in insertion order. -/

structure Endpoint where
  name : String
  route : String
deriving DecidableEq

structure VController where
  patterns : List (String × Bool)
  endpoints : List Endpoint
deriving DecidableEq

structure VDto where
  properties : List (String × String)
deriving DecidableEq

structure VComponent where
  apiCallsDirectly : Bool
deriving DecidableEq

structure VType where
  properties : List (String × String)
deriving DecidableEq

structure RawGraph where
  controllers : Option (List (String × VController))
  dtos : Option (List (String × VDto))
  components : Option (List (String × VComponent))
  hooks : Option (List (String × Unit))
  types : Option (List (String × VType))

structure Violation where
  check_name : String
  severity : String
  item : String
  detail : String
deriving DecidableEq

/-- `ContractVerifier.FRONTEND_ALLOWLIST` (lines 44-96). -/
def FRONTEND_ALLOWLIST : List String :=
  ["CreateNotificationDto", "BatchCheckinResultDto", "BulkUpdatePreferencesDto",
   "BulkMarkAttendanceResultDto", "BatchLabelRequestDto", "CapacityOverrideRequestDto",
   "AttendanceAnalyticsDto", "AttendanceTrendDto", "AttendanceByGroupDto",
   "AttendanceSummaryDto", "CreateGroupMemberDto", "UpdateGroupMemberDto",
   "ImportFamilyResultDto", "OfflineCheckinDto", "SystemStatisticsDto",
   "AuditLogExportRequest", "ExportJobDto", "StartExportRequest",
   "EmailAttachmentDto", "QueuedSmsDto", "TwilioWebhookDto",
   "BatchStatementRequest", "BatchFilterRequest",
   "ReportDefinitionDto", "CreateReportDefinitionRequest", "UpdateReportDefinitionRequest",
   "ReportRunDto", "RunReportRequest", "ReportScheduleDto", "CreateReportScheduleRequest",
   "UpdateReportScheduleRequest", "SecurityRoleDto", "SupervisorReprintRequest",
   "MyFamilyMemberDto", "MyInvolvementGroupDto", "PersonGroupMembershipDto",
   "DashboardBatchDto", "CreateFamilyAddressRequest"]

/-- `ContractVerifier.check_response_envelopes` (lines 130-159): a `FAIL`
finding for every controller whose `patterns` mapping lacks the
`response_envelope` key (key presence, not value, is checked). -/
def check_response_envelopes (g : RawGraph) : List Violation :=
  (g.controllers.getD []).foldl (fun acc ctrl =>
    if ((ctrl.2.patterns.lookup ("response_envelope")).isSome : Bool) then acc
    else acc ++ [⟨("Check 1"), ("FAIL"), ctrl.1,
      ("Missing response_envelope documentation in patterns")⟩]) []

/-- `ContractVerifier.check_no_integer_ids_in_dtos` (lines 161-190): a `FAIL`
finding for every DTO property named exactly `Id` whose type string contains
the substring `int` after lowercasing. -/
def check_no_integer_ids_in_dtos (g : RawGraph) : List Violation :=
  (g.dtos.getD []).foldl (fun acc dto =>
    dto.2.properties.foldl (fun acc2 pr =>
      if pr.1 = ("Id") ∧ containsSub (("int").data) ((strLower pr.2).data) = true then
        acc2 ++ [⟨("Check 2"), ("FAIL"), dto.1,
          ("Exposes integer ID: ") ++ pr.1 ++ (": ") ++ pr.2 ++ (" (should use IdKey string)")⟩]
      else acc2) acc) []

/-- `ContractVerifier.check_idkey_routes` (lines 192-220): a `FAIL` finding
for every endpoint whose route contains the literal substring `{id}`. -/
def check_idkey_routes (g : RawGraph) : List Violation :=
  (g.controllers.getD []).foldl (fun acc ctrl =>
    ctrl.2.endpoints.foldl (fun acc2 ep =>
      if containsSub (("\x7bid\x7d").data) ep.route.data then
        acc2 ++ [⟨("Check 3"), ("FAIL"), ctrl.1 ++ (".") ++ ep.name,
          ("Route uses \x7bid\x7d instead of \x7bidKey\x7d: ") ++ ep.route⟩]
      else acc2) acc) []

/-- `ContractVerifier.check_hook_wrapping` (lines 222-248): a `FAIL` finding
for every component whose `apiCallsDirectly` flag is true. -/
def check_hook_wrapping (g : RawGraph) : List Violation :=
  (g.components.getD []).foldl (fun acc comp =>
    if comp.2.apiCallsDirectly then
      acc ++ [⟨("Check 4"), ("FAIL"), comp.1,
        ("Component makes direct API calls instead of using hooks")⟩]
    else acc) []

/-- `ContractVerifier._pascal_to_camel_case` (lines 250-254). -/
def pascal_to_camel_case (pascal : String) : String :=
  match pascal.data with
  | [] => pascal
  | c :: rest => String.mk (Char.toLower c :: rest)

/-- `ContractVerifier._find_matching_type` (lines 256-282): exact name, then
the name without a `Dto` suffix, then a case-insensitive comparison of the
`Dto`-stripped base name against the available names. -/
def find_matching_type (dto_name : String) (available_types : List String) : Option String :=
  if available_types.contains dto_name then some dto_name
  else if strEndsWith dto_name ("Dto") ∧ available_types.contains (strDropRight dto_name 3) then
    some (strDropRight dto_name 3)
  else
    let base_name := if strEndsWith dto_name ("Dto") then strDropRight dto_name 3 else dto_name
    available_types.find? (fun available => strLower available = strLower base_name)

/-- `ContractVerifier._compare_properties` (lines 284-318): skipping common
base properties and stream-typed properties, a mismatch message for every
DTO property with no case-insensitive camelCase counterpart in the frontend
type. -/
def compare_properties (dto_properties type_properties : List (String × String)) :
    List String :=
  dto_properties.foldl (fun acc pr =>
    if pr.1 ∈ [("Id" : String), ("IdKey"), ("Guid"), ("CreatedDateTime"), ("ModifiedDateTime")] then acc
    else if pr.2 ∈ [("Stream" : String), ("FileStream"), ("IFormFile")] then acc
    else
      let expected_ts_prop := pascal_to_camel_case pr.1
      if type_properties.any (fun tp => strLower tp.1 = strLower expected_ts_prop) then acc
      else acc ++ [("Missing property: DTO has ") ++ pr.1 ++ (" (") ++ pr.2 ++
        (") but frontend type lacks ") ++ expected_ts_prop]) []

/-- `ContractVerifier.check_type_alignment` (lines 320-415): informational
early return recording no violations when the `types` section is absent or
empty; otherwise a `FAIL` finding for every non-allowlisted DTO without a
matching frontend type or with property mismatches, then a `WARN` finding
for every frontend type (underscore-prefixed and `Enum` names excepted)
without a corresponding DTO. -/
def check_type_alignment (g : RawGraph) : List Violation :=
  let dtos := g.dtos.getD []
  let types := g.types.getD []
  if types.isEmpty then []
  else
    let available_type_names := types.map Prod.fst
    let dtoViolations := dtos.foldl (fun acc dto =>
      if FRONTEND_ALLOWLIST.contains dto.1 then acc
      else if strEndsWith dto.1 ("RequestDto") ∨ strEndsWith dto.1 ("ResponseDto") then acc
      else
        match find_matching_type dto.1 available_type_names with
        | none => acc ++ [⟨("Check 5"), ("FAIL"), dto.1,
            ("No corresponding frontend type found")⟩]
        | some matching_type =>
          let type_props := ((types.lookup matching_type).map VType.properties).getD []
          (compare_properties dto.2.properties type_props).foldl (fun a mismatch =>
            a ++ [⟨("Check 5"), ("FAIL"), dto.1 ++ (" ↔ ") ++ matching_type, mismatch⟩]) acc) []
    let warnViolations := available_type_names.foldl (fun acc type_name =>
      if strStartsWith type_name ("_") ∨ containsSub (("Enum").data) type_name.data then acc
      else
        match find_matching_type type_name (dtos.map Prod.fst) with
        | some _ => acc
        | none => acc ++ [⟨("Check 5"), ("WARN"), type_name,
            ("Frontend type has no corresponding backend DTO (may be frontend-only)")⟩]) []
    dtoViolations ++ warnViolations

/-- The five check results in the order `verify_all` runs them
(lines 431-443). -/
def allViolations (g : RawGraph) : List Violation :=
  check_response_envelopes g ++ check_no_integer_ids_in_dtos g ++
    check_idkey_routes g ++ check_hook_wrapping g ++ check_type_alignment g

/-- The count of blocking violations of `_summarize` (lines 451-454). -/
def countFail (vs : List Violation) : Nat :=
  (vs.filter (fun v => v.severity = ("FAIL"))).length

/-- `ContractVerifier._summarize` (lines 445-471): exit code 1 when any
`FAIL`-severity finding exists, 0 otherwise; `WARN` findings never change
the code. -/
def summarize (vs : List Violation) : Nat :=
  if 0 < countFail vs then 1 else 0

/-- `ContractVerifier.verify_all` (lines 431-443): run the five checks and
summarise. -/
def verify_all (g : RawGraph) : Nat :=
  summarize (allViolations g)

/-- The possible states of the input graph file seen by `load_graph`. -/
inductive GraphFile where
  | missing
  | invalidJson
  | parsed (g : RawGraph)

/-- `ContractVerifier.load_graph` (lines 110-128): exit 2 when the file is
missing, is not valid JSON, or lacks one of the required top-level sections
`controllers`, `dtos`, `components`, `hooks`. -/
def load_graph : GraphFile → Except Nat RawGraph
  | .missing => .error 2
  | .invalidJson => .error 2
  | .parsed g =>
    if g.controllers.isNone then .error 2
    else if g.dtos.isNone then .error 2
    else if g.components.isNone then .error 2
    else if g.hooks.isNone then .error 2
    else .ok g

/-- The process exit code of the verifier (`main`, lines 474-487): 2 when
loading fails, otherwise the result of `verify_all`. -/
def verifierExit (gf : GraphFile) : Nat :=
  match load_graph gf with
  | .error code => code
  | .ok g => verify_all g

/-- A verifier graph holding a single DTO named `PersonDto` with the given
properties and empty remaining sections, exercising contract check 2. -/
def dtoGraph (props : List (String × String)) : RawGraph :=
  ⟨some [], some [(("PersonDto"), ⟨props⟩)], some [], some [], none⟩

/-- A verifier graph with all required sections present and no `types`
section. -/
def passingGraph : RawGraph :=
  ⟨some [], some [], some [], some [], none⟩

/-- A verifier graph with one failing component (a direct API call). -/
def failingGraph : RawGraph :=
  ⟨some [], some [], some [(("PersonCard"), ⟨true⟩)], some [], none⟩

/-- A verifier graph with DTOs but no frontend type information. -/
def noTypesGraph : RawGraph :=
  ⟨some [], some [(("OrphanDto"), ⟨[(("Value"), ("string"))]⟩)], some [], some [], none⟩

end Koinon.VerifyContracts

namespace Koinon

/-! ## Theorems settling the specification claims -/

/-- Claim C9: `camel_to_snake` inserts underscores at acronym and word
boundaries and lowercases the result; the three specification examples
`HTTPSConnection`, `Address1` and `GroupMember` evaluate as stated. -/
theorem camel_to_snake_spec_examples :
    GenBackend.camel_to_snake ("HTTPSConnection") = ("https_connection") ∧
    GenBackend.camel_to_snake ("Address1") = ("address1") ∧
    GenBackend.camel_to_snake ("GroupMember") = ("group_member") :=
  ⟨by decide, by decide, by decide⟩

/-- Claim C1 (evaluation at the failing input): on
`record PersonDto(required string Name, required IService Svc)`,
`extract_constructor_dependencies` returns `["required"]` — not the
`["IService"]` the specification requires.  The per-parameter pattern
demands a parameter name starting with a lowercase letter or underscore, so
`Svc` never matches, and backtracking over the optional `required` prefix
captures the keyword `required` itself as the "type" of the first
parameter. -/
theorem extract_constructor_dependencies_persondto_eval :
    GenBackend.extract_constructor_dependencies
        ("record PersonDto(required string Name, required IService Svc)") =
      [("required")] := by
  decide

/-- Claim C2 (counterexample): a property declaration with a `virtual`
modifier between `public` and the type token is matched by
`extract_properties`, and a property is recorded — refuting the claimed
non-match. -/
theorem extract_properties_virtual_still_matches :
    GenBackend.extract_properties ("public virtual Person Owner \x7b get; set; \x7d") ≠ [] := by
  decide

/-- Claim C2 (amended): property declarations with `virtual` or `override`
modifiers between `public` and the type are still matched, with the modifier
text absorbed into the recorded type string; a `required` modifier is
consumed by the pattern's explicit optional group, so the bare type is
recorded. -/
theorem extract_properties_modifier_behavior :
    GenBackend.extract_properties ("public virtual Person Owner \x7b get; set; \x7d") =
      [(("Owner"), ("virtual Person"))] ∧
    GenBackend.extract_properties ("public override string Title \x7b get; set; \x7d") =
      [(("Title"), ("override string"))] ∧
    GenBackend.extract_properties ("public required string Name \x7b get; set; \x7d") =
      [(("Name"), ("string"))] :=
  ⟨by decide, by decide, by decide⟩

/-- Claim C5: the merger's edge list is the concatenation of the backend
edges followed by the frontend edges, with no deduplication, so its length
is the sum of the input lengths, and the merged graph's `stats.total_edges`
equals that same sum — for any two input graphs. -/
theorem merge_edges_concat {α ε : Type}
    (backend : MergeGraph.BackendGraph α ε) (frontend : MergeGraph.FrontendGraph α ε) :
    (MergeGraph.merge backend frontend).edges = backend.edges ++ frontend.edges ∧
    (MergeGraph.merge backend frontend).edges.length =
      backend.edges.length + frontend.edges.length ∧
    (MergeGraph.merge backend frontend).stats.total_edges =
      backend.edges.length + frontend.edges.length := by
  refine ⟨rfl, ?_, ?_⟩ <;> simp [MergeGraph.merge]

end Koinon

namespace Koinon

/-- Claim C7: route matching first normalizes both routes (collapsing `//`
and stripping outer slashes) and compares them with every `{...}`
placeholder replaced by the canonical `{param}` token; in particular the two
specification examples evaluate as stated. -/
theorem routes_match_canonicalizes :
    (∀ b f : String, MergeGraph.routes_match b f =
      decide (MergeGraph.route_to_pattern (MergeGraph.normalizeRoute b) =
        MergeGraph.route_to_pattern (MergeGraph.normalizeRoute f))) ∧
    MergeGraph.routes_match ("/api/v1/people/\x7bid\x7d") ("/api/v1/people/\x7bidKey\x7d") = true ∧
    MergeGraph.routes_match ("/api/v1/people") ("/api/v1/groups") = false := by
  refine ⟨?_, by decide, by decide⟩
  intro b f
  unfold MergeGraph.routes_match
  by_cases h : MergeGraph.normalizeRoute b = MergeGraph.normalizeRoute f
  · rw [if_pos h, h]
    simp
  · rw [if_neg h]

/-- Claim C7 witness: the general normalization equation instantiated at
concrete routes. -/
theorem routes_match_canonicalizes_witness :
    MergeGraph.routes_match ("api//v1/people/") ("/api/v1/people") =
      decide (MergeGraph.route_to_pattern (MergeGraph.normalizeRoute ("api//v1/people/")) =
        MergeGraph.route_to_pattern (MergeGraph.normalizeRoute ("/api/v1/people"))) :=
  routes_match_canonicalizes.1 ("api//v1/people/") ("/api/v1/people")

end Koinon

namespace Koinon

/-- Claim C10: when the graph's `types` section is absent or empty, contract
check 5 returns early and records zero violations of either severity, so the
absence of frontend type information can never by itself produce a `FAIL`
finding from check 5. -/
theorem check5_empty_types_no_violations (g : VerifyContracts.RawGraph)
    (h : g.types = none ∨ g.types = some []) :
    VerifyContracts.check_type_alignment g = [] ∧
    VerifyContracts.countFail (VerifyContracts.check_type_alignment g) = 0 := by
  have ht : g.types.getD [] = [] := by rcases h with h | h <;> simp [h]
  have hempty : VerifyContracts.check_type_alignment g = [] := by
    simp [VerifyContracts.check_type_alignment, ht]
  exact ⟨hempty, by rw [hempty]; rfl⟩

/-- Claim C10 witness: the theorem applied to a graph with DTOs and no
`types` section. -/
theorem check5_empty_types_no_violations_witness :
    VerifyContracts.check_type_alignment VerifyContracts.noTypesGraph = [] :=
  (check5_empty_types_no_violations VerifyContracts.noTypesGraph (Or.inl rfl)).1

end Koinon


namespace Koinon

/-- Claim C6: contract check 2 flags a DTO property named exactly `Id` whose
type string contains the substring `int` case-insensitively — so `Id: int`
and `Id: int?` are flagged — while a property named `PersonId` of any type
produces no finding, and neither does `Id: string`. -/
theorem check2_integer_id_flagging :
    (∀ t : String,
      VerifyContracts.check_no_integer_ids_in_dtos
        (VerifyContracts.dtoGraph [(("PersonId"), t)]) = []) ∧
    (∀ t : String, containsSub (("int").data) ((strLower t).data) = true →
      VerifyContracts.check_no_integer_ids_in_dtos
        (VerifyContracts.dtoGraph [(("Id"), t)]) ≠ []) ∧
    VerifyContracts.check_no_integer_ids_in_dtos
        (VerifyContracts.dtoGraph [(("Id"), ("int"))]) =
      [⟨("Check 2"), ("FAIL"), ("PersonDto"),
        ("Exposes integer ID: Id: int (should use IdKey string)")⟩] ∧
    VerifyContracts.check_no_integer_ids_in_dtos
        (VerifyContracts.dtoGraph [(("Id"), ("int?"))]) =
      [⟨("Check 2"), ("FAIL"), ("PersonDto"),
        ("Exposes integer ID: Id: int? (should use IdKey string)")⟩] ∧
    VerifyContracts.check_no_integer_ids_in_dtos
        (VerifyContracts.dtoGraph [(("Id"), ("string"))]) = [] := by
  refine ⟨?_, ?_, by decide, by decide, by decide⟩
  · intro t
    simp only [VerifyContracts.check_no_integer_ids_in_dtos, VerifyContracts.dtoGraph,
      Option.getD_some, List.foldl_cons, List.foldl_nil]
    rw [if_neg]
    rintro ⟨h, -⟩
    exact absurd h (by decide)
  · intro t ht
    simp only [VerifyContracts.check_no_integer_ids_in_dtos, VerifyContracts.dtoGraph,
      Option.getD_some, List.foldl_cons, List.foldl_nil]
    rw [if_pos ⟨trivial, ht⟩]
    simp

/-- Claim C6 witness: the universally quantified parts instantiated at
concrete property types. -/
theorem check2_integer_id_flagging_witness :
    VerifyContracts.check_no_integer_ids_in_dtos
        (VerifyContracts.dtoGraph [(("PersonId"), ("int"))]) = [] ∧
    VerifyContracts.check_no_integer_ids_in_dtos
        (VerifyContracts.dtoGraph [(("Id"), ("UInt64 int"))]) ≠ [] :=
  ⟨check2_integer_id_flagging.1 ("int"),
    check2_integer_id_flagging.2.1 ("UInt64 int") (by decide)⟩

end Koinon

namespace Koinon

/-- Claim C4: the verifier process exits with code 2 when the graph file is
missing, is not valid JSON, or lacks a required top-level section; otherwise
it exits 0 exactly when there are zero `FAIL`-severity findings across the
five checks (`WARN` findings permitted) and 1 exactly when at least one
`FAIL` finding exists. -/
theorem verifier_exit_codes :
    VerifyContracts.verifierExit .missing = 2 ∧
    VerifyContracts.verifierExit .invalidJson = 2 ∧
    (∀ g : VerifyContracts.RawGraph,
      g.controllers = none ∨ g.dtos = none ∨ g.components = none ∨ g.hooks = none →
      VerifyContracts.verifierExit (.parsed g) = 2) ∧
    (∀ g : VerifyContracts.RawGraph,
      g.controllers.isSome = true → g.dtos.isSome = true →
      g.components.isSome = true → g.hooks.isSome = true →
      ((VerifyContracts.verifierExit (.parsed g) = 0 ↔
          VerifyContracts.countFail (VerifyContracts.allViolations g) = 0) ∧
        (VerifyContracts.verifierExit (.parsed g) = 1 ↔
          0 < VerifyContracts.countFail (VerifyContracts.allViolations g)))) := by
  refine ⟨rfl, rfl, ?_, ?_⟩
  · intro g h
    have hload : VerifyContracts.load_graph (.parsed g) = .error 2 := by
      unfold VerifyContracts.load_graph
      rcases h with h | h | h | h <;> simp [h]
    unfold VerifyContracts.verifierExit
    rw [hload]
  · intro g h1 h2 h3 h4
    obtain ⟨c1, hc1⟩ := Option.isSome_iff_exists.mp h1
    obtain ⟨c2, hc2⟩ := Option.isSome_iff_exists.mp h2
    obtain ⟨c3, hc3⟩ := Option.isSome_iff_exists.mp h3
    obtain ⟨c4, hc4⟩ := Option.isSome_iff_exists.mp h4
    have hload : VerifyContracts.load_graph (.parsed g) = .ok g := by
      unfold VerifyContracts.load_graph
      simp [hc1, hc2, hc3, hc4]
    have hexit : VerifyContracts.verifierExit (.parsed g) =
        VerifyContracts.summarize (VerifyContracts.allViolations g) := by
      unfold VerifyContracts.verifierExit
      rw [hload]
      rfl
    rw [hexit]
    unfold VerifyContracts.summarize
    by_cases hf : 0 < VerifyContracts.countFail (VerifyContracts.allViolations g)
    · rw [if_pos hf]
      exact ⟨by omega, by omega⟩
    · rw [if_neg hf]
      exact ⟨by omega, by omega⟩

/-- Claim C4 witness: a graph with all required sections and no findings
exits 0; a graph with one direct-API-call component exits 1. -/
theorem verifier_exit_codes_witness :
    VerifyContracts.verifierExit (.parsed VerifyContracts.passingGraph) = 0 ∧
    VerifyContracts.verifierExit (.parsed VerifyContracts.failingGraph) = 1 :=
  ⟨((verifier_exit_codes.2.2.2 VerifyContracts.passingGraph rfl rfl rfl rfl).1).mpr (by decide),
    ((verifier_exit_codes.2.2.2 VerifyContracts.failingGraph rfl rfl rfl rfl).2).mpr (by decide)⟩

end Koinon

namespace Koinon

/-- Claim C5 witness: the merge theorem instantiated at two concrete graphs
with two and three edges. -/
theorem merge_edges_concat_witness :
    (MergeGraph.merge MergeGraph.sampleBackend MergeGraph.sampleFrontend).edges.length = 5 ∧
    (MergeGraph.merge MergeGraph.sampleBackend MergeGraph.sampleFrontend).stats.total_edges = 5 := by
  have h := merge_edges_concat MergeGraph.sampleBackend MergeGraph.sampleFrontend
  exact ⟨by rw [h.2.1]; decide, by rw [h.2.2]; decide⟩

/-- Claim C3: whenever the 50-character window strictly preceding a match of
the method pattern does not contain the substring `async`, the extracted
method's `is_async` flag is false — even when the matched signature itself
reads `public async ...`, since the match consumed the `async` token and the
lookback window ends where the match begins.  The second conjunct shows the
effect on a concrete async signature. -/
theorem extract_methods_async_lookback :
    (∀ (content : List Char) (m : Nat × Nat × Caps) (mi : GenBackend.MethodInfo),
      m ∈ reFindIter GenBackend.methodPattern content →
      GenBackend.mkMethod content m = some mi →
      containsSub (("async").data) (GenBackend.asyncLookback content m.1) = false →
      mi.is_async = false) ∧
    GenBackend.extract_methods ("public async Task<string> GetAsync() \x7b \x7d") =
      [⟨("GetAsync"), ("Task<string>"), false⟩] := by
  constructor
  · intro content m mi _ hmk hlb
    simp only [GenBackend.mkMethod] at hmk
    split at hmk
    · exact Option.noConfusion hmk
    · obtain rfl := Option.some.inj hmk
      exact hlb
  · decide

/-- Claim C3 witness: the lookback theorem applied to the match the method
pattern finds in `public async Task<string> GetAsync() { }`, whose lookback
window (the text before position 0) is empty. -/
theorem extract_methods_async_lookback_witness :
    GenBackend.MethodInfo.is_async ⟨("GetAsync"), ("Task<string>"), false⟩ = false :=
  extract_methods_async_lookback.1 (("public async Task<string> GetAsync() \x7b \x7d").data)
    (0, 35, [(1, ("Task<string>").data), (2, ("GetAsync").data)])
    ⟨("GetAsync"), ("Task<string>"), false⟩ (by decide) (by decide) (by decide)

end Koinon


namespace Koinon

/-- Auxiliary for claim C8: if scanning a segment `x` from depth `d` never
returns the depth to zero (ending at depth `e`), then the balancing scan of
`x ++ y` from depth `d` is the scan of `y` from depth `e`, with `x`
prefixed. -/
theorem runDepth_scanBalanced_append (opC clC : Char) (x : List Char) :
    ∀ (d e : Nat), GenBackend.runDepth opC clC x d = some e →
      ∀ y, GenBackend.scanBalanced opC clC (x ++ y) d =
        (GenBackend.scanBalanced opC clC y e).map (fun t => x ++ t) := by
  induction x with
  | nil =>
    intro d e h y
    obtain rfl : d = e := by simpa [GenBackend.runDepth] using h
    simp
  | cons c rest ih =>
    intro d e h y
    simp only [GenBackend.runDepth] at h
    simp only [List.cons_append, GenBackend.scanBalanced]
    set d' := if c = opC then d + 1 else if c = clC then d - 1 else d with hd'
    by_cases h0 : d' = 0
    · rw [if_pos h0] at h
      exact Option.noConfusion h
    · rw [if_neg h0] at h
      simp only [List.append_eq]
      rw [if_neg h0, ih d' e h y]
      cases GenBackend.scanBalanced opC clC y e <;> simp

/-- Claim C8: the balanced-delimiter scan, started at an opening delimiter,
returns exactly the substring strictly between the opening delimiter and its
matching closing delimiter (handling nesting), and signals failure (`""` for
the parenthesis extractor, `none` for the class-body brace loop) when the
input ends before the depth returns to zero.  Conjuncts: the brace example
from the specification, the parenthesis analogue, the general nested-success
law, the two general truncation laws, and two concrete truncated inputs. -/
theorem balanced_extraction_spec :
    GenBackend.class_body_scan (("\x7b a \x7b b \x7d c \x7d").data) 1 =
      some ((" a \x7b b \x7d c ").data) ∧
    GenBackend.extract_balanced_parens (("( a ( b ) c )").data) 0 = (" a ( b ) c ").data ∧
    (∀ (x rest : List Char), GenBackend.runDepth '(' ')' x 1 = some 1 →
      GenBackend.extract_balanced_parens ('(' :: (x ++ ')' :: rest)) 0 = x) ∧
    (∀ (x : List Char) (e : Nat), GenBackend.runDepth '(' ')' x 1 = some e →
      GenBackend.extract_balanced_parens ('(' :: x) 0 = []) ∧
    (∀ (x : List Char) (e : Nat), GenBackend.runDepth '\x7b' '\x7d' x 1 = some e →
      GenBackend.class_body_scan ('\x7b' :: x) 1 = none) ∧
    GenBackend.class_body_scan (("\x7b a \x7b b ").data) 1 = none ∧
    GenBackend.extract_balanced_parens (("( a ( b ").data) 0 = [] := by
  refine ⟨by decide, by decide, ?_, ?_, ?_, by decide, by decide⟩
  · intro x rest h
    rw [show GenBackend.extract_balanced_parens ('(' :: (x ++ ')' :: rest)) 0 =
      (GenBackend.scanBalanced '(' ')' (x ++ ')' :: rest) 1).getD [] from rfl]
    rw [runDepth_scanBalanced_append '(' ')' x 1 1 h (')' :: rest)]
    rw [show GenBackend.scanBalanced '(' ')' (')' :: rest) 1 = some [] from rfl]
    simp
  · intro x e h
    have hx := runDepth_scanBalanced_append '(' ')' x 1 e h []
    rw [List.append_nil] at hx
    rw [show GenBackend.scanBalanced '(' ')' [] e = none from rfl] at hx
    rw [show GenBackend.extract_balanced_parens ('(' :: x) 0 =
      (GenBackend.scanBalanced '(' ')' x 1).getD [] from rfl]
    rw [hx]
    rfl
  · intro x e h
    have hx := runDepth_scanBalanced_append '\x7b' '\x7d' x 1 e h []
    rw [List.append_nil] at hx
    rw [show GenBackend.scanBalanced '\x7b' '\x7d' [] e = none from rfl] at hx
    rw [show GenBackend.class_body_scan ('\x7b' :: x) 1 =
      GenBackend.scanBalanced '\x7b' '\x7d' x 1 from rfl]
    rw [hx]
    rfl

/-- Claim C8 witness: the general nested-success law applied to the
specification's example body. -/
theorem balanced_extraction_spec_witness :
    GenBackend.extract_balanced_parens ('(' :: (((" a ( b ) c ").data) ++ ')' :: [])) 0 =
      (" a ( b ) c ").data :=
  balanced_extraction_spec.2.2.1 ((" a ( b ) c ").data) [] (by decide)

end Koinon
